import Mathlib

set_option maxRecDepth 4000

/-!
Shallow embedding of the hisab-sdk TypeScript client core
(src/errors.ts, src/utils/request.ts, src/utils/pagination.ts,
src/utils/webhooks.ts) together with theorems settling the frozen
claims about the natural-language specification.

Conventions of the embedding:
- JavaScript numbers that are known integers are modelled as Nat/Int;
  NaN produced by parseInt is modelled by Option (none = NaN).
- JavaScript strings are Lean String; string falsiness tests model
  the fact that only the empty string is falsy.
- The Fetch Headers object is modelled as a lookup function
  String -> Option String (Headers.get returns null or the value).
- The platform HMAC-SHA256-hex primitive (node:crypto / WebCrypto)
  is an external collaborator of the repository; it is abstracted as
  a function parameter hmac : secret -> message -> hex digest.
-/

namespace HisabSDK

/-! ## Models of JavaScript string/number primitives -/

/-- Whitespace skipped by the model of JavaScript parseInt. -/
def isJsSpace (c : Char) : Bool :=
  c == ' ' || c == '\t' || c == '\n' || c == '\r'

/-- Numeric value of a decimal digit character. -/
def digitVal (c : Char) : Nat := c.toNat - 48

/-- Parse a maximal leading run of decimal digits; none when there is
no leading digit (parseInt would yield NaN). -/
def parseDigits (cs : List Char) : Option Nat :=
  let ds := cs.takeWhile Char.isDigit
  if ds.isEmpty then none
  else some (ds.foldl (fun a c => 10 * a + digitVal c) 0)

/-- Numeric value of a digit string (the fold performed by parseDigits). -/
def parseVal (cs : List Char) : Nat := cs.foldl (fun a c => 10 * a + digitVal c) 0

/-- Model of JavaScript parseInt(s, 10): skip leading whitespace, an
optional sign, then the longest run of decimal digits; none models NaN. -/
def jsParseInt (s : String) : Option Int :=
  match s.data.dropWhile isJsSpace with
  | [] => none
  | c :: rest =>
    if c = '-' then (parseDigits rest).map (fun n => -(n : Int))
    else if c = '+' then (parseDigits rest).map (fun n => (n : Int))
    else (parseDigits (c :: rest)).map (fun n => (n : Int))

/-- Decimal digits of a natural number, least significant first;
fuel-based structural recursion so the kernel can evaluate it. -/
def natDigitsRevAux : Nat → Nat → List Char
  | 0, _ => []
  | fuel + 1, n =>
    if n < 10 then [Nat.digitChar n]
    else Nat.digitChar (n % 10) :: natDigitsRevAux fuel (n / 10)

/-- Decimal digits of a natural number, least significant first. -/
def natDigitsRev (n : Nat) : List Char := natDigitsRevAux (n + 1) n

/-- Decimal string of a natural number (model of JS number-to-string
for nonnegative integers). -/
def natToString (n : Nat) : String := String.mk (natDigitsRev n).reverse

/-- Model of JavaScript template-literal conversion of an integer. -/
def jsIntToString (i : Int) : String :=
  if i < 0 then "-" ++ natToString i.natAbs else natToString i.natAbs

/-- Model of JavaScript String.prototype.split with a one-character
separator (the source only splits on the single character '='). -/
def jsSplitAux (sep : Char) : List Char → List Char → List String
  | [], acc => [String.mk acc.reverse]
  | c :: cs, acc =>
    if c = sep then String.mk acc.reverse :: jsSplitAux sep cs []
    else jsSplitAux sep cs (c :: acc)

/-- JavaScript s.split(sep) for a single-character separator. -/
def jsSplit (sep : Char) (s : String) : List String := jsSplitAux sep s.data []

/-- UTF-8 encoding of one character (model of Buffer.from / TextEncoder). -/
def utf8Bytes (c : Char) : List Nat :=
  let n := c.toNat
  if n < 128 then [n]
  else if n < 2048 then [192 + n / 64, 128 + n % 64]
  else if n < 65536 then [224 + n / 4096, 128 + (n / 64) % 64, 128 + n % 64]
  else [240 + n / 262144, 128 + (n / 4096) % 64, 128 + (n / 64) % 64, 128 + n % 64]

/-- Model of Buffer.from(s) (UTF-8 bytes of a string). -/
def bufferFrom (s : String) : List Nat := s.data.flatMap utf8Bytes

/-- Truthiness of a nullable JS string: null and the empty string are falsy. -/
def truthyStr : Option String → Bool
  | none => false
  | some v => v ≠ ""

/-! ## Error taxonomy (src/errors.ts) -/

/-- A field-level error detail entry (ErrorDetail in src/types). -/
structure ErrorDetail where
  field : String
  message : String
deriving DecidableEq

/-- Nested error object of an API error response body. -/
structure ErrorInfo where
  code : Option String
  message : Option String
  details : Option (List ErrorDetail)
deriving DecidableEq

/-- Parsed error response body, shape taken by HisabError.fromResponse. -/
structure ErrorBody where
  error : Option ErrorInfo
deriving DecidableEq

/-- A raw JavaScript error value thrown by the platform fetch
(network failure, abort); isTypeError models instanceof TypeError. -/
structure JsError where
  name : String
  message : String
  isTypeError : Bool
deriving DecidableEq

/-- Model of the Fetch API Headers object: Headers.get. -/
abbrev HeadersM := String → Option String

/-- Value of a HisabError (or subclass) instance. The dynamic class is
captured by the name field exactly as the constructors set this.name.
retryAfter is some for RateLimitError instances only; its inner Option
models a JS number that may be NaN (none). cause is set by NetworkError. -/
structure HisabError where
  name : String
  message : String
  code : String
  status : Nat
  details : Option (List ErrorDetail)
  response : Option ErrorBody
  retryAfter : Option (Option Int)
  cause : Option JsError
deriving DecidableEq

/-- new HisabError(message, code, status, details?, response?). -/
def HisabError.make (message code : String) (status : Nat)
    (details : Option (List ErrorDetail)) (response : Option ErrorBody) : HisabError :=
  ⟨"HisabError", message, code, status, details, response, none, none⟩

/-- new ValidationError(message, code, details?, response?); status fixed 400. -/
def ValidationError.make (message code : String)
    (details : Option (List ErrorDetail)) (response : Option ErrorBody) : HisabError :=
  ⟨"ValidationError", message, code, 400, details, response, none, none⟩

/-- new AuthenticationError(message?, code?, response?); the TS default
parameters apply when an argument is omitted (modelled by none). -/
def AuthenticationError.make (message code : Option String)
    (response : Option ErrorBody) : HisabError :=
  ⟨"AuthenticationError", message.getD "Invalid or missing API key",
    code.getD "UNAUTHORIZED", 401, none, response, none, none⟩

/-- new ForbiddenError(message?, code?, response?); status fixed 403. -/
def ForbiddenError.make (message code : Option String)
    (response : Option ErrorBody) : HisabError :=
  ⟨"ForbiddenError", message.getD "Insufficient permissions",
    code.getD "FORBIDDEN", 403, none, response, none, none⟩

/-- new NotFoundError(message?, code?, response?); status fixed 404. -/
def NotFoundError.make (message code : Option String)
    (response : Option ErrorBody) : HisabError :=
  ⟨"NotFoundError", message.getD "Resource not found",
    code.getD "NOT_FOUND", 404, none, response, none, none⟩

/-- new RateLimitError(message?, code?, response?, retryAfter = 60);
status fixed 429, retryAfter stored on the instance. -/
def RateLimitError.make (message code : Option String)
    (response : Option ErrorBody) (retryAfter : Option Int) : HisabError :=
  ⟨"RateLimitError", message.getD "Rate limit exceeded",
    code.getD "RATE_LIMIT_EXCEEDED", 429, none, response, some retryAfter, none⟩

/-- new NetworkError(message?, originalCause?); status 0, cause preserved. -/
def NetworkError.make (message : Option String) (originalCause : Option JsError) : HisabError :=
  ⟨"NetworkError", message.getD "Network request failed",
    "NETWORK_ERROR", 0, none, none, none, originalCause⟩

/-- new TimeoutError(message?, timeout?); a truthy timeout replaces the
message by the interpolated one (timeout 0 is falsy in JS). -/
def TimeoutError.make (message : Option String) (timeout : Option Nat) : HisabError :=
  let base := message.getD "Request timed out"
  let msg := match timeout with
    | some t => if t ≠ 0 then "Request timed out after " ++ natToString t ++ "ms" else base
    | none => base
  ⟨"TimeoutError", msg, "TIMEOUT", 0, none, none, none, none⟩

/-- HisabError.fromResponse(status, body, headers?): the status-based
error factory (src/errors.ts lines 43-71). The TS switch is modelled as
a chain of equality tests. -/
def HisabError.fromResponse (status : Nat) (body : ErrorBody)
    (headers : Option HeadersM) : HisabError :=
  let code := (body.error.bind (·.code)).getD "UNKNOWN_ERROR"
  let message := (body.error.bind (·.message)).getD "An unknown error occurred"
  let details := body.error.bind (·.details)
  if status = 400 then ValidationError.make message code details (some body)
  else if status = 401 then AuthenticationError.make (some message) (some code) (some body)
  else if status = 403 then ForbiddenError.make (some message) (some code) (some body)
  else if status = 404 then NotFoundError.make (some message) (some code) (some body)
  else if status = 429 then
    let retryAfter := match headers with
      | some h => jsParseInt ((h "Retry-After").getD "60")
      | none => some 60
    RateLimitError.make (some message) (some code) (some body) retryAfter
  else HisabError.make message code status details (some body)

/-! ## Webhook verifier (src/utils/webhooks.ts)

The cryptographic HMAC-SHA256-hex primitive is supplied by the platform
(node:crypto / WebCrypto); following the specification it is abstracted
as a parameter hmac : secret -> message -> hex digest. The current epoch
second (Date.now() / 1000 floored) is passed explicitly as now. -/

/-- VerifyWebhookSignatureOptions (src/types); tolerance is optional
with a destructuring default of 300. -/
structure VerifyOptions where
  payload : String
  signature : String
  timestamp : String
  secret : String
  tolerance : Option Int
deriving DecidableEq

/-- WebhookVerificationResult. -/
structure WebhookVerificationResult where
  valid : Bool
  error : Option String
deriving DecidableEq

/-- verifyWithNodeCrypto: computes the expected digest and compares with
crypto.timingSafeEqual on the UTF-8 buffers; timingSafeEqual throws on a
byte-length mismatch, which the catch turns into a failure result. -/
def verifyWithNodeCrypto (hmac : String → String → String)
    (signedPayload receivedSignature secret : String) : WebhookVerificationResult :=
  let expected := hmac secret signedPayload
  if (bufferFrom receivedSignature).length = (bufferFrom expected).length then
    { valid := bufferFrom receivedSignature == bufferFrom expected, error := none }
  else
    { valid := false,
      error := some "Signature verification failed: Input buffers must have the same byte length" }

/-- verifyWebhookSignatureWithReason (src/utils/webhooks.ts lines 512-566). -/
def verifyWebhookSignatureWithReason (hmac : String → String → String)
    (now : Int) (o : VerifyOptions) : WebhookVerificationResult :=
  let tolerance := o.tolerance.getD 300
  if o.payload = "" ∨ o.signature = "" ∨ o.timestamp = "" ∨ o.secret = "" then
    { valid := false, error := some "Missing required parameters for signature verification" }
  else
    match jsParseInt o.timestamp with
    | none => { valid := false, error := some "Invalid timestamp format" }
    | some webhookTimestamp =>
      if |now - webhookTimestamp| > tolerance then
        { valid := false,
          error := some ("Webhook timestamp is outside tolerance (" ++ jsIntToString tolerance ++ "s)") }
      else
        let parts := jsSplit '=' o.signature
        if parts.length ≠ 2 then
          { valid := false, error := some "Invalid signature format" }
        else
          let version := parts.getD 0 ""
          let receivedSignature := parts.getD 1 ""
          if version ≠ "v1" then
            { valid := false, error := some ("Unknown signature version: " ++ version) }
          else
            verifyWithNodeCrypto hmac (o.timestamp ++ "." ++ o.payload) receivedSignature o.secret

/-- verifyWebhookSignature: boolean form, result.valid of the detailed form. -/
def verifyWebhookSignature (hmac : String → String → String)
    (now : Int) (o : VerifyOptions) : Bool :=
  (verifyWebhookSignatureWithReason hmac now o).valid

/-- verifyWebhookSignatureAsync (src/utils/webhooks.ts lines 605-644):
same leading checks, but the signature-format and version checks are
merged into one test with the single reason Invalid signature format,
and the digest comparison is a plain string equality. -/
def verifyWebhookSignatureAsync (hmac : String → String → String)
    (now : Int) (o : VerifyOptions) : WebhookVerificationResult :=
  let tolerance := o.tolerance.getD 300
  if o.payload = "" ∨ o.signature = "" ∨ o.timestamp = "" ∨ o.secret = "" then
    { valid := false, error := some "Missing required parameters for signature verification" }
  else
    match jsParseInt o.timestamp with
    | none => { valid := false, error := some "Invalid timestamp format" }
    | some webhookTimestamp =>
      if |now - webhookTimestamp| > tolerance then
        { valid := false,
          error := some ("Webhook timestamp is outside tolerance (" ++ jsIntToString tolerance ++ "s)") }
      else
        let parts := jsSplit '=' o.signature
        if parts.length ≠ 2 ∨ parts.getD 0 "" ≠ "v1" then
          { valid := false, error := some "Invalid signature format" }
        else
          let receivedSignature := parts.getD 1 ""
          let expected := hmac o.secret (o.timestamp ++ "." ++ o.payload)
          { valid := expected == receivedSignature, error := none }

/-- generateTestSignature (src/utils/webhooks.ts lines 737-757): the
companion signer; returns (signature, timestamp). nowDefault models the
current epoch second used when no timestamp is supplied. -/
def generateTestSignature (hmac : String → String → String) (nowDefault : Int)
    (payload secret : String) (timestamp : Option Int) : String × String :=
  let ts := timestamp.getD nowDefault
  let signedPayload := jsIntToString ts ++ "." ++ payload
  let signature := hmac secret signedPayload
  ("v1=" ++ signature, jsIntToString ts)

/-! ## Pagination iterator (src/utils/pagination.ts)

The transport client is abstracted as a server function taking the page
and per_page query values and returning a PaginatedResponse (its data
array and meta.pagination.total_pages). The async generator of
PaginatedIterator is modelled as a pull-based step machine genNext whose
state records the three mutable cursor fields plus the items of the
current page not yet yielded (the position inside the for loop of the
generator body); fetches instruments the number of client.get calls. -/

/-- One page of a PaginatedResponse: data and meta.pagination.total_pages. -/
structure Page (T : Type) where
  data : List T
  totalPages : Nat

/-- The transport client seen by the iterator: page, per_page to response. -/
abbrev Server (T : Type) := Nat → Nat → Page T

/-- AutoPaginateOptions: page, per_page, maxItems, all optional. -/
structure IterOptions where
  page : Option Nat
  per_page : Option Nat
  maxItems : Option Nat

/-- Cursor state of one traversal. buffer holds the items of the
fetched page still to be yielded; totalPages = none means the generator
is at the top of the while loop about to fetch (the field is only read
after having been assigned from a fetched page, so using none as the
about-to-fetch marker does not lose information). done records that the
generator has returned. -/
structure IterState (T : Type) where
  currentPage : Nat
  itemsYielded : Nat
  totalPages : Option Nat
  buffer : List T
  fetches : Nat
  done : Bool
deriving DecidableEq

/-- JS truthiness test maxItems && itemsYielded >= maxItems: undefined
and 0 are falsy, so the cap is enforced only when maxItems is a nonzero
number. -/
def capReached : Option Nat → Nat → Bool
  | none, _ => false
  | some m, yielded => if m = 0 then false else decide (m ≤ yielded)

/-- One resumption of the async generator: run until the next yield
(some item) or until the generator returns (none). The fuel bounds the
internal page-advance loop (needed only when the server keeps returning
pages that contribute no yield). -/
def genNext {T : Type} (server : Server T) (maxItems : Option Nat) (perPage : Nat) :
    Nat → IterState T → Option T × IterState T
  | 0, st => (none, st)
  | fuel + 1, st =>
    if st.done then (none, st)
    else
      match st.buffer with
      | item :: rest =>
        -- inside the for loop: the cap is tested before each yield;
        -- when it fires the generator breaks out and returns
        if capReached maxItems st.itemsYielded then
          (none, { st with buffer := [], done := true })
        else
          (some item, { st with buffer := rest, itemsYielded := st.itemsYielded + 1 })
      | [] =>
        match st.totalPages with
        | some tp =>
          -- after the for loop: stop on the last page, else advance
          if tp ≤ st.currentPage then (none, { st with done := true })
          else genNext server maxItems perPage fuel
            { st with currentPage := st.currentPage + 1, totalPages := none }
        | none =>
          -- top of the while loop: cap check, then fetch the current page
          if capReached maxItems st.itemsYielded then
            (none, { st with done := true })
          else
            let response := server st.currentPage perPage
            genNext server maxItems perPage fuel
              { st with totalPages := some response.totalPages,
                        buffer := response.data, fetches := st.fetches + 1 }

/-- Drain the generator to completion, collecting the yielded items. -/
def genDrain {T : Type} (server : Server T) (maxItems : Option Nat) (perPage : Nat) :
    Nat → IterState T → List T × IterState T
  | 0, st => ([], st)
  | fuel + 1, st =>
    match genNext server maxItems perPage (fuel + 1) st with
    | (none, st1) => ([], st1)
    | (some item, st1) =>
      let rest := genDrain server maxItems perPage fuel st1
      (item :: rest.1, rest.2)

/-- take(n) (src/utils/pagination.ts lines 132-141): pull an item, break
when count has already reached n (the pulled item is discarded), else
keep it. The break finishes the generator, so nothing is pulled after it. -/
def takeRun {T : Type} (server : Server T) (maxItems : Option Nat) (perPage : Nat) :
    Nat → Nat → IterState T → List T × IterState T
  | _, 0, st => ([], st)
  | n, fuel + 1, st =>
    match genNext server maxItems perPage (fuel + 1) st with
    | (none, st1) => ([], st1)
    | (some item, st1) =>
      if n = 0 then ([], st1)
      else
        let rest := takeRun server maxItems perPage (n - 1) fuel st1
        (item :: rest.1, rest.2)

/-- The PaginatedIterator object: its construction arguments plus the
three mutable cursor fields (src/utils/pagination.ts lines 19-40). -/
structure PaginatedIterator (T : Type) where
  server : Server T
  options : IterOptions
  currentPage : Nat
  itemsYielded : Nat
  totalPages : Option Nat

/-- new PaginatedIterator(client, path, options) (constructor lines 28-40). -/
def mkIterator {T : Type} (server : Server T) (options : IterOptions) : PaginatedIterator T :=
  { server := server, options := options,
    currentPage := options.page.getD 1, itemsYielded := 0, totalPages := none }

/-- The reset performed at the start of every generator invocation
(lines 46-49): the cursor state is reinitialised from the options,
independently of the current field values of the iterator object. -/
def resetState {T : Type} (it : PaginatedIterator T) : IterState T :=
  { currentPage := it.options.page.getD 1, itemsYielded := 0, totalPages := none,
    buffer := [], fetches := 0, done := false }

/-- One full traversal of the iterator object: resets the cursor state,
drains the generator, and returns (items, number of page fetches,
iterator object with its mutable fields updated). -/
def traverse {T : Type} (it : PaginatedIterator T) (fuel : Nat) :
    List T × Nat × PaginatedIterator T :=
  let perPage := it.options.per_page.getD 100
  let r := genDrain it.server it.options.maxItems perPage fuel (resetState it)
  (r.1, r.2.fetches,
    { it with currentPage := r.2.currentPage, itemsYielded := r.2.itemsYielded,
              totalPages := r.2.totalPages })

/-- take(n) called on the iterator object (the for-await in take invokes
the generator afresh, so the cursor state is reset first). -/
def takeIter {T : Type} (it : PaginatedIterator T) (n : Nat) (fuel : Nat) :
    List T × IterState T :=
  let perPage := it.options.per_page.getD 100
  takeRun it.server it.options.maxItems perPage n fuel (resetState it)

/-- A well-behaved list endpoint over a fixed item list: page p carries
items (p-1)*per_page .. p*per_page-1 and total_pages is the ceiling of
the item count divided by per_page. -/
def listServer {T : Type} (items : List T) : Server T := fun page perPage =>
  { data := (items.drop ((page - 1) * perPage)).take perPage,
    totalPages := (items.length + perPage - 1) / perPage }

/-! ## Transport core (src/utils/request.ts)

HttpClient.request is modelled as a recursion over the attempt counter.
The platform fetch is abstracted as a function from the attempt index to
the outcome of that attempt: either a response or a thrown error. Sleeps are
recorded symbolically (the backoff delay contains Math.random jitter, so
only the kind of sleep is observable deterministically). Errors thrown
by the error factory inside the try block are rethrown unchanged by the
catch (instanceof HisabError), so the model propagates them directly. -/

/-- Rate limit info parsed from response headers; each field is a
parseInt result (none models NaN). -/
structure RateLimitInfo where
  limit : Option Int
  remaining : Option Int
  reset : Option Int
deriving DecidableEq

/-- A response produced by an attempt: its status, headers, the error
body that safeParseJson would deliver for a failure status, and the
parsed success value. Response.ok is status in [200, 300). -/
structure MockResponse (T : Type) where
  status : Nat
  headers : HeadersM
  errorBody : ErrorBody
  value : T

/-- Outcome of one transport attempt. -/
inductive FetchOutcome (T : Type) where
  | resp (r : MockResponse T)
  | throwErr (e : JsError)

/-- What request ultimately throws: a typed HisabError, or a raw
platform error rethrown unchanged. -/
inductive Thrown where
  | api (e : HisabError)
  | raw (e : JsError)
deriving DecidableEq

/-- A sleep performed between attempts: exponential backoff after the
given attempt, or a rate-limit wait of retryAfter seconds. -/
inductive SleepEvent where
  | backoff (attempt : Nat)
  | retryAfterWait (seconds : Option Int)
deriving DecidableEq

instance {e a : Type} [DecidableEq e] [DecidableEq a] : DecidableEq (Except e a) := fun x y =>
  match x, y with
  | .ok v, .ok w =>
    if h : v = w then isTrue (by rw [h])
    else isFalse (fun hc => h (by injection hc))
  | .error v, .error w =>
    if h : v = w then isTrue (by rw [h])
    else isFalse (fun hc => h (by injection hc))
  | .ok _, .error _ => isFalse (fun hc => Except.noConfusion hc)
  | .error _, .ok _ => isFalse (fun hc => Except.noConfusion hc)

/-- Result of HttpClient.request: the value or thrown error, the number
of attempts made, the final lastRateLimit snapshot, and the sleeps. -/
structure RunResult (T : Type) where
  result : Except Thrown T
  attempts : Nat
  snapshot : Option RateLimitInfo
  sleeps : List SleepEvent

/-- HttpClient.parseRateLimitHeaders (lines 396-408): overwrite the
snapshot only when all three headers are present with truthy values. -/
def HttpClient.parseRateLimitHeaders (headers : HeadersM)
    (last : Option RateLimitInfo) : Option RateLimitInfo :=
  let limit := headers "X-RateLimit-Limit"
  let remaining := headers "X-RateLimit-Remaining"
  let reset := headers "X-RateLimit-Reset"
  if truthyStr limit && truthyStr remaining && truthyStr reset then
    some { limit := jsParseInt (limit.getD ""),
           remaining := jsParseInt (remaining.getD ""),
           reset := jsParseInt (reset.getD "") }
  else last

/-- Response.ok of the Fetch API. -/
def responseOk (status : Nat) : Prop := 200 ≤ status ∧ status < 300

instance (status : Nat) : Decidable (responseOk status) := by
  unfold responseOk; infer_instance

/-- JavaScript e.message.includes("fetch"). -/
def mentionsFetch (e : JsError) : Prop := "fetch".data.IsInfix e.message.data

instance (e : JsError) : Decidable (mentionsFetch e) := by
  unfold mentionsFetch; exact List.decidableInfix _ _

/-- The error transform at the end of the catch block once no attempts
remain (lines 330-339): TypeError mentioning fetch becomes NetworkError,
AbortError becomes TimeoutError, anything else is rethrown unchanged. -/
def transformFinalError (e : JsError) (requestTimeout : Nat) : Thrown :=
  if e.isTypeError = true ∧ mentionsFetch e then
    .api (NetworkError.make (some "Network request failed") (some e))
  else if e.name = "AbortError" then
    .api (TimeoutError.make (some "Request timed out") (some requestTimeout))
  else .raw e

/-- The attempt loop of HttpClient.request (lines 257-341). attempt is
the 1-based counter; fuel counts the attempts still allowed, with
fuel = maxAttempts - attempt + 1 at every call. -/
def requestGo {T : Type} (fetch : Nat → FetchOutcome T) (maxAttempts requestTimeout : Nat) :
    Nat → Nat → Option RateLimitInfo → List SleepEvent → RunResult T
  | attempt, 0, snap, sleeps =>
    -- the for loop was exhausted without returning; with maxAttempts = 0
    -- lastError is still null and the fallback NetworkError is thrown
    ⟨.error (.api (NetworkError.make (some "Request failed after all retries") none)),
      attempt - 1, snap, sleeps⟩
  | attempt, fuel + 1, snap, sleeps =>
    match fetch attempt with
    | .throwErr e =>
      -- catch block for a non-HisabError: retry if attempts remain,
      -- else transform and throw
      if attempt < maxAttempts then
        requestGo fetch maxAttempts requestTimeout (attempt + 1) fuel snap
          (sleeps ++ [.backoff attempt])
      else
        ⟨.error (transformFinalError e requestTimeout), attempt, snap, sleeps⟩
    | .resp r =>
      let snap1 := HttpClient.parseRateLimitHeaders r.headers snap
      if responseOk r.status then
        ⟨.ok r.value, attempt, snap1, sleeps⟩
      else
        let err := HisabError.fromResponse r.status r.errorBody (some r.headers)
        if 400 ≤ r.status ∧ r.status < 500 ∧ r.status ≠ 429 then
          ⟨.error (.api err), attempt, snap1, sleeps⟩
        else if r.status = 429 ∧ attempt < maxAttempts then
          requestGo fetch maxAttempts requestTimeout (attempt + 1) fuel snap1
            (sleeps ++ [.retryAfterWait (err.retryAfter.getD none)])
        else if 500 ≤ r.status ∧ attempt < maxAttempts then
          requestGo fetch maxAttempts requestTimeout (attempt + 1) fuel snap1
            (sleeps ++ [.backoff attempt])
        else
          ⟨.error (.api err), attempt, snap1, sleeps⟩

/-- Per-request configuration (retries, timeout overrides) and the
instance defaults (options.retries ?? 3, options.timeout ?? 30000). -/
structure ClientConfig where
  maxRetries : Nat
  timeout : Nat

structure RequestConfig where
  retries : Option Nat
  timeout : Option Nat

/-- HttpClient.request: maxAttempts = (retries ?? maxRetries) + 1;
snap0 is the lastRateLimit of the instance at call time. -/
def HttpClient.request {T : Type} (cfg : ClientConfig) (rc : RequestConfig)
    (fetch : Nat → FetchOutcome T) (snap0 : Option RateLimitInfo) : RunResult T :=
  let maxAttempts := rc.retries.getD cfg.maxRetries + 1
  let requestTimeout := rc.timeout.getD cfg.timeout
  requestGo fetch maxAttempts requestTimeout 1 maxAttempts snap0 []

/-- The lastRateLimit field starts as null on a fresh HttpClient
(line 212). -/
def HttpClient.initialRateLimit : Option RateLimitInfo := none

/-! ## Claim-side comparison definitions

These definitions follow the wording of the specification claims (not
the source); the claim theorems compare them with the source embedding. -/

/-- Claim C1: the variant the spec assigns to each status. The spec
names ValidationFailure, AuthenticationFailure, PermissionFailure,
NotFoundFailure, RateLimitFailure, GenericApiFailure; the source classes
realising them are ValidationError, AuthenticationError, ForbiddenError,
NotFoundError, RateLimitError, HisabError. -/
def claimVariantName (status : Nat) : String :=
  if status = 400 then "ValidationError"
  else if status = 401 then "AuthenticationError"
  else if status = 403 then "ForbiddenError"
  else if status = 404 then "NotFoundError"
  else if status = 429 then "RateLimitError"
  else "HisabError"

/-- Claim C1: retry-after parsed from the Retry-After header as an
integer, defaulting to 60 when the header is missing or headers are
absent; only a 429 result carries the field. -/
def claimRetryAfter (status : Nat) (headers : Option HeadersM) : Option (Option Int) :=
  if status = 429 then
    some (match headers with
      | none => some 60
      | some h => match h "Retry-After" with
        | none => some 60
        | some v => jsParseInt v)
  else none

/-- Claim C3: the first failing check, in the order and with the exact
reasons the claim states for the synchronous verifier. -/
def specFirstFailingReason (now : Int) (o : VerifyOptions) : Option String :=
  let tolerance := o.tolerance.getD 300
  if o.payload = "" ∨ o.signature = "" ∨ o.timestamp = "" ∨ o.secret = "" then
    some "Missing required parameters for signature verification"
  else
    match jsParseInt o.timestamp with
    | none => some "Invalid timestamp format"
    | some webhookTimestamp =>
      if |now - webhookTimestamp| > tolerance then
        some ("Webhook timestamp is outside tolerance (" ++ jsIntToString tolerance ++ "s)")
      else
        let parts := jsSplit '=' o.signature
        if parts.length ≠ 2 then some "Invalid signature format"
        else if parts.getD 0 "" ≠ "v1" then
          some ("Unknown signature version: " ++ parts.getD 0 "")
        else none

/-- Claim C3 amended: the async verifier merges the signature-format
and version checks into one check with the single reason
Invalid signature format. -/
def asyncFirstFailingReason (now : Int) (o : VerifyOptions) : Option String :=
  let tolerance := o.tolerance.getD 300
  if o.payload = "" ∨ o.signature = "" ∨ o.timestamp = "" ∨ o.secret = "" then
    some "Missing required parameters for signature verification"
  else
    match jsParseInt o.timestamp with
    | none => some "Invalid timestamp format"
    | some webhookTimestamp =>
      if |now - webhookTimestamp| > tolerance then
        some ("Webhook timestamp is outside tolerance (" ++ jsIntToString tolerance ++ "s)")
      else
        let parts := jsSplit '=' o.signature
        if parts.length ≠ 2 ∨ parts.getD 0 "" ≠ "v1" then some "Invalid signature format"
        else none

/-! ## Concrete fixtures used by witnesses and counterexamples -/

/-- A concrete deterministic stand-in for the abstract HMAC-SHA256-hex
primitive, used to instantiate theorems at concrete inputs (the early
validation checks never reach it). -/
def constHmac : String → String → String := fun _ _ => "ab"

/-- The 250-item data set of the pagination claims, listed with
per_page = 100. -/
def it250 : PaginatedIterator Nat :=
  mkIterator (listServer (List.range 250)) ⟨none, some 100, none⟩

/-- A fetch whose one response is a bare 404 without rate limit headers. -/
def fetch404 : Nat → FetchOutcome Nat :=
  fun _ => .resp ⟨404, fun _ => none, ⟨none⟩, 0⟩

/-- A generic platform error that is neither a TypeError mentioning
fetch nor an AbortError. -/
def boomErr : JsError := ⟨"Error", "boom", false⟩

/-- The abort error raised when the per-attempt timeout fires. -/
def abortErr : JsError := ⟨"AbortError", "This operation was aborted", false⟩

/-- A fetch that always throws the generic error. -/
def fetchBoom : Nat → FetchOutcome Nat := fun _ => .throwErr boomErr

/-- A fetch that always fails before producing a response, with an
abort error. -/
def fetchAbort : Nat → FetchOutcome Nat := fun _ => .throwErr abortErr

/-- Headers carrying the rate-limit example values of the spec. -/
def rlHeaders : HeadersM := fun n =>
  if n = "X-RateLimit-Limit" then some "100"
  else if n = "X-RateLimit-Remaining" then some "45"
  else if n = "X-RateLimit-Reset" then some "1700000000"
  else none

/-- Headers missing the reset header. -/
def rlHeadersPartial : HeadersM := fun n =>
  if n = "X-RateLimit-Limit" then some "100"
  else if n = "X-RateLimit-Remaining" then some "45"
  else none

/-- A fetch answering 200 with the example rate-limit headers. -/
def fetchOkRl : Nat → FetchOutcome Nat := fun _ => .resp ⟨200, rlHeaders, ⟨none⟩, 7⟩

/-! ## Groundwork lemmas: decimal strings round-trip through parseInt -/

theorem digitChar_isDigit {d : Nat} (h : d < 10) : (Nat.digitChar d).isDigit = true := by
  interval_cases d <;> decide

theorem digitVal_digitChar {d : Nat} (h : d < 10) : digitVal (Nat.digitChar d) = d := by
  interval_cases d <;> decide

theorem natDigitsRev_ne_nil (n : Nat) : natDigitsRev n ≠ [] := by
  unfold natDigitsRev natDigitsRevAux
  split <;> simp

theorem natDigitsRevAux_all_digits (fuel : Nat) :
    ∀ n, ∀ c ∈ natDigitsRevAux fuel n, c.isDigit = true := by
  induction fuel with
  | zero => intro n c hc; simp [natDigitsRevAux] at hc
  | succ fuel ih =>
    intro n c hc
    rw [natDigitsRevAux] at hc
    by_cases h : n < 10
    · rw [if_pos h] at hc
      simp only [List.mem_singleton] at hc
      subst hc
      exact digitChar_isDigit h
    · rw [if_neg h] at hc
      rcases List.mem_cons.mp hc with hc | hc
      · subst hc
        exact digitChar_isDigit (Nat.mod_lt _ (by omega))
      · exact ih (n / 10) c hc

theorem natDigitsRev_all_digits (n : Nat) : ∀ c ∈ natDigitsRev n, c.isDigit = true :=
  natDigitsRevAux_all_digits (n + 1) n

theorem parseVal_append_digit (l : List Char) (c : Char) :
    parseVal (l ++ [c]) = 10 * parseVal l + digitVal c := by
  simp [parseVal, List.foldl_append]

theorem parseVal_natDigitsRevAux (fuel : Nat) :
    ∀ n, n < fuel → parseVal (natDigitsRevAux fuel n).reverse = n := by
  induction fuel with
  | zero => intro n hn; omega
  | succ fuel ih =>
    intro n hn
    rw [natDigitsRevAux]
    by_cases h : n < 10
    · rw [if_pos h]
      simp [parseVal, digitVal_digitChar h]
    · rw [if_neg h]
      have hdiv : n / 10 < fuel := by
        have := Nat.div_lt_self (show 0 < n by omega) (show (1 : Nat) < 10 by omega)
        omega
      rw [List.reverse_cons, parseVal_append_digit, ih (n / 10) hdiv,
        digitVal_digitChar (Nat.mod_lt _ (by omega))]
      omega

theorem parseVal_natDigitsRev (n : Nat) : parseVal (natDigitsRev n).reverse = n :=
  parseVal_natDigitsRevAux (n + 1) n (by omega)

theorem parseDigits_of_digits {l : List Char} (hl : ∀ c ∈ l, c.isDigit = true)
    (hne : l ≠ []) : parseDigits l = some (parseVal l) := by
  unfold parseDigits
  rw [List.takeWhile_eq_self_iff.mpr hl]
  simp [parseVal, List.isEmpty_iff, hne]

theorem isDigit_not_space {c : Char} (h : c.isDigit = true) : isJsSpace c = false := by
  by_contra hc
  simp only [Bool.not_eq_false, isJsSpace, Bool.or_eq_true, beq_iff_eq] at hc
  rcases hc with ((rfl | rfl) | rfl) | rfl <;> exact absurd h (by decide)

theorem isDigit_ne_dash {c : Char} (h : c.isDigit = true) : c ≠ '-' := by
  rintro rfl; exact absurd h (by decide)

theorem isDigit_ne_plus {c : Char} (h : c.isDigit = true) : c ≠ '+' := by
  rintro rfl; exact absurd h (by decide)

theorem dropWhile_space_of_digits {l : List Char} (hl : ∀ c ∈ l, c.isDigit = true) :
    l.dropWhile isJsSpace = l := by
  cases l with
  | nil => rfl
  | cons c cs =>
    exact List.dropWhile_cons_of_neg (by
      simp [isDigit_not_space (hl c (List.mem_cons_self c cs))])

theorem jsParseInt_of_digits {l : List Char} (hl : ∀ c ∈ l, c.isDigit = true)
    (hne : l ≠ []) : jsParseInt (String.mk l) = some (parseVal l : Int) := by
  unfold jsParseInt
  have hdata : (String.mk l).data = l := rfl
  rw [hdata, dropWhile_space_of_digits hl]
  cases l with
  | nil => exact absurd rfl hne
  | cons c cs =>
    have hcdig : c.isDigit = true := hl c (List.mem_cons_self c cs)
    simp only [if_neg (isDigit_ne_dash hcdig), if_neg (isDigit_ne_plus hcdig)]
    rw [parseDigits_of_digits hl hne]
    rfl

theorem jsParseInt_natToString (n : Nat) : jsParseInt (natToString n) = some (n : Int) := by
  unfold natToString
  rw [jsParseInt_of_digits
    (fun c hc => natDigitsRev_all_digits n c (List.mem_reverse.mp hc))
    (by simp [natDigitsRev_ne_nil n])]
  rw [parseVal_natDigitsRev]

theorem natToString_ne_empty (n : Nat) : natToString n ≠ "" := by
  unfold natToString
  intro h
  have : (natDigitsRev n).reverse = ([] : List Char) := congrArg String.data h
  simp [natDigitsRev_ne_nil n] at this

theorem jsParseInt_jsIntToString (i : Int) : jsParseInt (jsIntToString i) = some i := by
  unfold jsIntToString
  by_cases hi : i < 0
  · rw [if_pos hi]
    have hdig := fun c hc => natDigitsRev_all_digits i.natAbs c (List.mem_reverse.mp hc)
    have hne : (natDigitsRev i.natAbs).reverse ≠ [] := by simp [natDigitsRev_ne_nil]
    unfold jsParseInt
    have hdata : ("-" ++ natToString i.natAbs).data = '-' :: (natDigitsRev i.natAbs).reverse := by
      rw [String.data_append]; rfl
    rw [hdata]
    rw [show ('-' :: (natDigitsRev i.natAbs).reverse).dropWhile isJsSpace
        = '-' :: (natDigitsRev i.natAbs).reverse from
      List.dropWhile_cons_of_neg (by decide)]
    simp only [if_pos rfl]
    rw [parseDigits_of_digits hdig hne, parseVal_natDigitsRev]
    show some (-(i.natAbs : Int)) = some i
    congr 1
    omega
  · rw [if_neg hi, jsParseInt_natToString]
    congr 1
    omega

theorem jsIntToString_ne_empty (i : Int) : jsIntToString i ≠ "" := by
  unfold jsIntToString
  by_cases hi : i < 0
  · rw [if_pos hi]
    intro h
    have : ("-" ++ natToString i.natAbs).data = ("" : String).data := congrArg String.data h
    rw [String.data_append] at this
    simp at this
  · rw [if_neg hi]
    exact natToString_ne_empty _

/-! ## Groundwork lemmas: JavaScript split on the = character -/

theorem jsSplitAux_no_sep (sep : Char) (l : List Char) :
    ∀ acc : List Char, (∀ c ∈ l, c ≠ sep) →
      jsSplitAux sep l acc = [String.mk (acc.reverse ++ l)] := by
  induction l with
  | nil => intro acc _; simp [jsSplitAux]
  | cons c cs ih =>
    intro acc h
    rw [jsSplitAux, if_neg (h c (List.mem_cons_self c cs))]
    rw [ih (c :: acc) (fun d hd => h d (List.mem_cons_of_mem c hd))]
    simp

theorem jsSplit_v1 (d : String) (hd : ∀ c ∈ d.data, c ≠ '=') :
    jsSplit '=' ("v1=" ++ d) = ["v1", d] := by
  unfold jsSplit
  have hdata : ("v1=" ++ d).data = 'v' :: '1' :: '=' :: d.data := by
    rw [String.data_append]; rfl
  rw [hdata]
  rw [jsSplitAux, if_neg (by decide)]
  rw [jsSplitAux, if_neg (by decide)]
  rw [jsSplitAux, if_pos rfl]
  rw [jsSplitAux_no_sep '=' d.data [] hd]
  simp

/-! ## Claim C1 -/

/-- Claim C1: for every HTTP status, parsed body and optional headers,
the error factory returns exactly the variant the spec assigns to the
status (400 ValidationFailure, 401 AuthenticationFailure, 403
PermissionFailure, 404 NotFoundFailure, 429 RateLimitFailure with
retry-after parsed from the Retry-After header, defaulting to 60 when
the header is missing or headers are absent; any other status
GenericApiFailure), with status field equal to the input status. -/
theorem claim_c1_error_factory (status : Nat) (body : ErrorBody) (headers : Option HeadersM) :
    (HisabError.fromResponse status body headers).name = claimVariantName status ∧
    (HisabError.fromResponse status body headers).status = status ∧
    (HisabError.fromResponse status body headers).retryAfter = claimRetryAfter status headers := by
  by_cases h1 : status = 400
  · subst h1
    simp [HisabError.fromResponse, claimVariantName, claimRetryAfter, ValidationError.make]
  by_cases h2 : status = 401
  · subst h2
    simp [HisabError.fromResponse, claimVariantName, claimRetryAfter, AuthenticationError.make]
  by_cases h3 : status = 403
  · subst h3
    simp [HisabError.fromResponse, claimVariantName, claimRetryAfter, ForbiddenError.make]
  by_cases h4 : status = 404
  · subst h4
    simp [HisabError.fromResponse, claimVariantName, claimRetryAfter, NotFoundError.make]
  by_cases h5 : status = 429
  · subst h5
    refine ⟨?_, ?_, ?_⟩
    · simp [HisabError.fromResponse, claimVariantName, RateLimitError.make]
    · simp [HisabError.fromResponse, RateLimitError.make]
    · simp only [HisabError.fromResponse, claimRetryAfter, RateLimitError.make]
      cases headers with
      | none => simp
      | some h =>
        cases hh : h "Retry-After" with
        | none =>
          simp [hh]
          decide
        | some v => simp [hh]
  · simp [HisabError.fromResponse, claimVariantName, claimRetryAfter, HisabError.make,
      h1, h2, h3, h4, h5]

/-! ## Claim C8 -/

/-- Claim C8 counterexample: with a body omitting the message, the
factory gives every variant the generic default message
An unknown error occurred, not the variant-specific defaults the claim
states for 401, 403 and 404. -/
theorem claim_c8_counterexample :
    (HisabError.fromResponse 401 ⟨none⟩ none).message = "An unknown error occurred" ∧
    (HisabError.fromResponse 401 ⟨none⟩ none).message ≠ "Invalid or missing API key" ∧
    (HisabError.fromResponse 403 ⟨none⟩ none).message ≠ "Insufficient permissions" ∧
    (HisabError.fromResponse 404 ⟨none⟩ none).message ≠ "Resource not found" := by
  decide

/-- Claim C8 amended: when the body omits a message the factory applies
the generic default An unknown error occurred to the 401, 403 and 404
variants alike; the variant-specific default messages of the claim are
constructor defaults, applied only when the error classes are
instantiated directly without a message argument. -/
theorem claim_c8_amended (body : ErrorBody) (headers : Option HeadersM)
    (hmsg : body.error.bind (fun e => e.message) = none) :
    (HisabError.fromResponse 401 body headers).message = "An unknown error occurred" ∧
    (HisabError.fromResponse 403 body headers).message = "An unknown error occurred" ∧
    (HisabError.fromResponse 404 body headers).message = "An unknown error occurred" ∧
    (AuthenticationError.make none none none).message = "Invalid or missing API key" ∧
    (ForbiddenError.make none none none).message = "Insufficient permissions" ∧
    (NotFoundError.make none none none).message = "Resource not found" := by
  unfold HisabError.fromResponse
  simp [hmsg, AuthenticationError.make, ForbiddenError.make, NotFoundError.make]

/-- Witness for the amended claim C8 at a concrete empty body. -/
theorem claim_c8_witness :
    (HisabError.fromResponse 401 ⟨none⟩ none).message = "An unknown error occurred" ∧
    (AuthenticationError.make none none none).message = "Invalid or missing API key" :=
  ⟨(claim_c8_amended ⟨none⟩ none rfl).1, (claim_c8_amended ⟨none⟩ none rfl).2.2.2.1⟩

/-! ## Claim C3 -/

/-- Claim C3 counterexample: for a signature with version v2, the async
verifier cited by the claim reports Invalid signature format rather than
the claimed Unknown signature version: v2 (its format and version checks
are merged into one). The synchronous verifier does report the claimed
reason at the same input. -/
theorem claim_c3_counterexample :
    verifyWebhookSignatureAsync constHmac 5 ⟨"p", "v2=ab", "5", "s", none⟩ =
      ⟨false, some "Invalid signature format"⟩ ∧
    verifyWebhookSignatureWithReason constHmac 5 ⟨"p", "v2=ab", "5", "s", none⟩ =
      ⟨false, some "Unknown signature version: v2"⟩ ∧
    ("Invalid signature format" : String) ≠ "Unknown signature version: v2" := by
  decide

/-- Claim C3 amended: the verifiers perform their checks in the fixed
order the claim states, the first failing check determines the reason,
and the HMAC primitive is never consulted when a check fails (the result
is independent of the hmac argument, which does not occur in the
conclusion). The reasons are exactly as claimed for the synchronous
verifier; the async verifier merges the signature-format and version
checks into one check whose single reason is Invalid signature format. -/
theorem claim_c3_amended :
    (∀ (hmac : String → String → String) (now : Int) (o : VerifyOptions) (r : String),
      specFirstFailingReason now o = some r →
      verifyWebhookSignatureWithReason hmac now o = ⟨false, some r⟩) ∧
    (∀ (hmac : String → String → String) (now : Int) (o : VerifyOptions) (r : String),
      asyncFirstFailingReason now o = some r →
      verifyWebhookSignatureAsync hmac now o = ⟨false, some r⟩) := by
  constructor
  · intro hmac now o r h
    simp only [specFirstFailingReason] at h
    simp only [verifyWebhookSignatureWithReason]
    by_cases hm : o.payload = "" ∨ o.signature = "" ∨ o.timestamp = "" ∨ o.secret = ""
    · rw [if_pos hm] at h
      rw [if_pos hm]
      injection h with h
      rw [h]
    · rw [if_neg hm] at h
      rw [if_neg hm]
      cases hts : jsParseInt o.timestamp with
      | none =>
        simp only [hts] at h
        simp only [hts]
        injection h with h
        rw [h]
      | some ts =>
        simp only [hts] at h
        simp only [hts]
        by_cases htol : |now - ts| > o.tolerance.getD 300
        · rw [if_pos htol] at h
          rw [if_pos htol]
          injection h with h
          rw [h]
        · rw [if_neg htol] at h
          rw [if_neg htol]
          by_cases hlen : (jsSplit '=' o.signature).length ≠ 2
          · rw [if_pos hlen] at h
            rw [if_pos hlen]
            injection h with h
            rw [h]
          · rw [if_neg hlen] at h
            rw [if_neg hlen]
            by_cases hver : (jsSplit '=' o.signature).getD 0 "" ≠ "v1"
            · rw [if_pos hver] at h
              rw [if_pos hver]
              injection h with h
              rw [h]
            · rw [if_neg hver] at h
              exact absurd h (by simp)
  · intro hmac now o r h
    simp only [asyncFirstFailingReason] at h
    simp only [verifyWebhookSignatureAsync]
    by_cases hm : o.payload = "" ∨ o.signature = "" ∨ o.timestamp = "" ∨ o.secret = ""
    · rw [if_pos hm] at h
      rw [if_pos hm]
      injection h with h
      rw [h]
    · rw [if_neg hm] at h
      rw [if_neg hm]
      cases hts : jsParseInt o.timestamp with
      | none =>
        simp only [hts] at h
        simp only [hts]
        injection h with h
        rw [h]
      | some ts =>
        simp only [hts] at h
        simp only [hts]
        by_cases htol : |now - ts| > o.tolerance.getD 300
        · rw [if_pos htol] at h
          rw [if_pos htol]
          injection h with h
          rw [h]
        · rw [if_neg htol] at h
          rw [if_neg htol]
          by_cases hfmt : (jsSplit '=' o.signature).length ≠ 2 ∨
              (jsSplit '=' o.signature).getD 0 "" ≠ "v1"
          · rw [if_pos hfmt] at h
            rw [if_pos hfmt]
            injection h with h
            rw [h]
          · rw [if_neg hfmt] at h
            exact absurd h (by simp)

/-- Witness for the amended claim C3: concrete failing inputs for each
verifier, with the result given by applying the amended theorem. -/
theorem claim_c3_witness :
    verifyWebhookSignatureWithReason constHmac 0 ⟨"p", "v1=ab", "xx", "s", none⟩ =
      ⟨false, some "Invalid timestamp format"⟩ ∧
    verifyWebhookSignatureAsync constHmac 5 ⟨"p", "v2=ab", "5", "s", none⟩ =
      ⟨false, some "Invalid signature format"⟩ :=
  ⟨claim_c3_amended.1 constHmac 0 ⟨"p", "v1=ab", "xx", "s", none⟩ _ (by decide),
   claim_c3_amended.2 constHmac 5 ⟨"p", "v2=ab", "5", "s", none⟩ _ (by decide)⟩

/-! ## Claim C4 -/

/-- Claim C4 counterexample: the round trip fails for the empty payload.
The companion signer happily signs the empty payload, the timestamp is
within tolerance, yet verification returns valid = false because the
missing-parameter check treats the empty payload as missing. -/
theorem claim_c4_counterexample :
    generateTestSignature constHmac 0 "" "s" (some 5) = ("v1=ab", "5") ∧
    |(5 : Int) - 5| ≤ 300 ∧
    verifyWebhookSignatureWithReason constHmac 5
      { payload := "", signature := "v1=ab", timestamp := "5", secret := "s",
        tolerance := none } =
      ⟨false, some "Missing required parameters for signature verification"⟩ := by
  decide

/-- Claim C4 amended: for every nonempty payload P and nonempty secret S,
every integer timestamp T within tolerance of now, and every HMAC-hex
primitive whose digest contains no = character (true of hex SHA-256
digests), verifying the signature and timestamp produced by the
companion signer against the same P and S succeeds with valid = true. -/
theorem claim_c4_amended (hmac : String → String → String) (now nowDefault T : Int)
    (tol : Option Int) (P S : String) (hP : P ≠ "") (hS : S ≠ "")
    (hdig : ∀ c ∈ (hmac S (jsIntToString T ++ "." ++ P)).data, c ≠ '=')
    (htol : |now - T| ≤ tol.getD 300) :
    verifyWebhookSignatureWithReason hmac now
      { payload := P,
        signature := (generateTestSignature hmac nowDefault P S (some T)).1,
        timestamp := (generateTestSignature hmac nowDefault P S (some T)).2,
        secret := S,
        tolerance := tol } = ⟨true, none⟩ := by
  have hgen1 : (generateTestSignature hmac nowDefault P S (some T)).1
      = "v1=" ++ hmac S (jsIntToString T ++ "." ++ P) := rfl
  have hgen2 : (generateTestSignature hmac nowDefault P S (some T)).2 = jsIntToString T := rfl
  have hsig : ("v1=" ++ hmac S (jsIntToString T ++ "." ++ P)) ≠ "" := by
    intro hcontra
    have := congrArg String.data hcontra
    rw [String.data_append] at this
    simp at this
  simp only [verifyWebhookSignatureWithReason, hgen1, hgen2]
  rw [if_neg (by
    push_neg
    exact ⟨hP, hsig, jsIntToString_ne_empty T, hS⟩)]
  simp only [jsParseInt_jsIntToString]
  rw [if_neg (not_lt.mpr htol)]
  rw [jsSplit_v1 _ hdig]
  rw [if_neg (by simp)]
  rw [if_neg (by simp)]
  simp [verifyWithNodeCrypto, List.getD]

/-- Witness for the amended claim C4 at concrete inputs. -/
theorem claim_c4_witness :
    verifyWebhookSignatureWithReason constHmac 5
      { payload := "p", signature := (generateTestSignature constHmac 0 "p" "s" (some 5)).1,
        timestamp := (generateTestSignature constHmac 0 "p" "s" (some 5)).2,
        secret := "s", tolerance := none } = ⟨true, none⟩ :=
  claim_c4_amended constHmac 5 0 5 none "p" "s" (by decide) (by decide)
    (by decide) (by decide)

/-! ## Claim C5 -/

/-- The full drain of the 250-item traversal, shared by the pagination
claims: all 250 items in server order, 3 page fetches, final cursor on
page 3 with 250 items yielded. -/
theorem drain250 :
    genDrain (listServer (List.range 250)) none 100 600 (resetState it250) =
      (List.range 250, ⟨3, 250, some 3, [], 3, true⟩) := by
  decide

/-- Claim C5: over a 250-item data set with per_page = 100 a full
traversal yields exactly the 250 items in server order using exactly 3
page fetches, and a second traversal of the same (updated) iterator
object restarts from scratch and yields the same sequence with the same
3 fetches. -/
theorem claim_c5_pagination :
    (traverse it250 600).1 = List.range 250 ∧
    (traverse it250 600).2.1 = 3 ∧
    (traverse (traverse it250 600).2.2 600).1 = List.range 250 ∧
    (traverse (traverse it250 600).2.2 600).2.1 = 3 := by
  decide

/-! ## Claim C6 -/

/-- take(n) keeps exactly the first n items of the traversal the
generator would produce (take pulls one item beyond the n-th before
breaking, but discards it). -/
theorem takeRun_items {T : Type} (server : Server T) (maxItems : Option Nat) (perPage : Nat) :
    ∀ (fuel n : Nat) (st : IterState T),
      (takeRun server maxItems perPage n fuel st).1 =
        ((genDrain server maxItems perPage fuel st).1).take n := by
  intro fuel
  induction fuel with
  | zero => intro n st; simp [takeRun, genDrain]
  | succ fuel ih =>
    intro n st
    simp only [takeRun, genDrain]
    cases hg : genNext server maxItems perPage (fuel + 1) st with
    | mk o st1 =>
      cases o with
      | none => simp
      | some item =>
        simp only
        by_cases hn : n = 0
        · subst hn; simp
        · obtain ⟨m, rfl⟩ := Nat.exists_eq_succ_of_ne_zero hn
          simp [ih]

/-- Claim C6 counterexample: take(100) over the 250-item data set with
page size 100 returns the first 100 items but performs 2 page fetches,
although one fetch suffices for the first 100 items: the for-await loop
in take pulls the 101st item (triggering the second fetch) before it
tests the break condition. -/
theorem claim_c6_counterexample :
    (takeIter it250 100 600).1 = (List.range 250).take 100 ∧
    (takeIter it250 100 600).2.fetches = 2 := by
  decide

/-- Claim C6 amended: take(n) returns exactly the first min(n, total)
items, but before stopping it pulls one item beyond the n-th from the
underlying traversal, so it can fetch one page beyond those needed for
the first n items (exactly when n is a positive multiple of the page
size and further pages remain). take(5) over the 250-item data set
performs exactly one page fetch and returns exactly the first 5 items;
take(100) performs 2 fetches; take(250) performs 3. -/
theorem claim_c6_amended :
    (∀ n : Nat, (takeIter it250 n 600).1 = (List.range 250).take n) ∧
    (takeIter it250 5 600).1 = (List.range 250).take 5 ∧
    (takeIter it250 5 600).2.fetches = 1 ∧
    (takeIter it250 100 600).2.fetches = 2 ∧
    (takeIter it250 250 600).2.fetches = 3 := by
  refine ⟨?_, by decide, by decide, by decide, by decide⟩
  intro n
  show (takeRun (listServer (List.range 250)) none 100 n 600 (resetState it250)).1 = _
  rw [takeRun_items, drain250]

/-! ## Claim C10 -/

theorem capReached_some_zero (y : Nat) : capReached (some 0) y = capReached none y := rfl

theorem genNext_cap_zero {T : Type} (server : Server T) (perPage : Nat) :
    ∀ (fuel : Nat) (st : IterState T),
      genNext server (some 0) perPage fuel st = genNext server none perPage fuel st := by
  intro fuel
  induction fuel with
  | zero => intro st; rfl
  | succ fuel ih =>
    intro st
    simp only [genNext]
    simp only [capReached_some_zero, ih]

theorem genDrain_cap_zero {T : Type} (server : Server T) (perPage : Nat) :
    ∀ (fuel : Nat) (st : IterState T),
      genDrain server (some 0) perPage fuel st = genDrain server none perPage fuel st := by
  intro fuel
  induction fuel with
  | zero => intro st; rfl
  | succ fuel ih =>
    intro st
    simp only [genDrain]
    simp only [genNext_cap_zero, ih]

/-- Claim C10: a maxItems cap of 0 is falsy in the guard
maxItems && itemsYielded >= maxItems, so it has no effect: the traversal
behaves exactly like an unlimited one (same yielded items and same
number of page fetches, for every server and fuel), and over the
250-item data set it yields all 250 items rather than zero. -/
theorem claim_c10_zero_cap :
    (∀ (T : Type) (server : Server T) (page per_page : Option Nat) (fuel : Nat),
      (traverse (mkIterator server ⟨page, per_page, some 0⟩) fuel).1 =
        (traverse (mkIterator server ⟨page, per_page, none⟩) fuel).1 ∧
      (traverse (mkIterator server ⟨page, per_page, some 0⟩) fuel).2.1 =
        (traverse (mkIterator server ⟨page, per_page, none⟩) fuel).2.1) ∧
    (traverse (mkIterator (listServer (List.range 250)) ⟨none, some 100, some 0⟩) 600).1 =
      List.range 250 := by
  constructor
  · intro T server page per_page fuel
    constructor
    · show (genDrain server (some 0) _ fuel _).1 = (genDrain server none _ fuel _).1
      rw [genDrain_cap_zero]
      rfl
    · show (genDrain server (some 0) _ fuel _).2.fetches =
        (genDrain server none _ fuel _).2.fetches
      rw [genDrain_cap_zero]
      rfl
  · decide

/-! ## Claim C2 -/

/-- Claim C2: for every response with a 4xx status other than 429, a
single call to the transport core makes exactly one attempt and fails
immediately with the factory-built typed error (no sleeps), regardless
of the configured retry budget. -/
theorem claim_c2_no_retry_4xx {T : Type} (cfg : ClientConfig) (rc : RequestConfig)
    (fetch : Nat → FetchOutcome T) (snap0 : Option RateLimitInfo) (r : MockResponse T)
    (hf : fetch 1 = .resp r) (h4 : 400 ≤ r.status) (h5 : r.status < 500)
    (h9 : r.status ≠ 429) :
    HttpClient.request cfg rc fetch snap0 =
      ⟨.error (.api (HisabError.fromResponse r.status r.errorBody (some r.headers))), 1,
        HttpClient.parseRateLimitHeaders r.headers snap0, []⟩ := by
  unfold HttpClient.request
  simp only [requestGo, hf]
  rw [if_neg (show ¬ responseOk r.status by unfold responseOk; omega)]
  rw [if_pos ⟨h4, h5, h9⟩]

/-- Witness for claim C2: one bare 404 response, retry budget 3. -/
theorem claim_c2_witness :
    HttpClient.request ⟨3, 30000⟩ ⟨none, none⟩ fetch404 none =
      ⟨.error (.api (HisabError.fromResponse 404 ⟨none⟩ (some (fun _ => none)))), 1,
        HttpClient.parseRateLimitHeaders (fun _ => none) none, []⟩ :=
  claim_c2_no_retry_4xx ⟨3, 30000⟩ ⟨none, none⟩ fetch404 none ⟨404, fun _ => none, ⟨none⟩, 0⟩
    rfl (by decide) (by decide) (by decide)

/-! ## Claim C7 -/

/-- Claim C7 counterexample: a pre-response failure whose cause is
neither an abort nor a TypeError mentioning fetch is re-raised as the
raw platform error once the budget is exhausted: it is neither the
TimeoutFailure nor the NetworkFailure the claim requires. -/
theorem claim_c7_counterexample :
    (HttpClient.request ⟨0, 30000⟩ ⟨none, none⟩ fetchBoom none).result =
      .error (.raw boomErr) ∧
    Thrown.raw boomErr ≠
      .api (NetworkError.make (some "Network request failed") (some boomErr)) ∧
    Thrown.raw boomErr ≠
      .api (TimeoutError.make (some "Request timed out") (some 30000)) := by
  decide

/-- When every attempt throws the same pre-response error, the loop
retries until the budget is exhausted and then surfaces the transformed
final error with maxAttempts attempts made. -/
theorem requestGo_all_throw {T : Type} (fetch : Nat → FetchOutcome T)
    (maxAttempts requestTimeout : Nat) (e : JsError)
    (hf : ∀ i, fetch i = .throwErr e) :
    ∀ (fuel attempt : Nat) (snap : Option RateLimitInfo) (sleeps : List SleepEvent),
      attempt + fuel = maxAttempts + 1 → 1 ≤ fuel →
      (requestGo fetch maxAttempts requestTimeout attempt fuel snap sleeps).result =
        .error (transformFinalError e requestTimeout) ∧
      (requestGo fetch maxAttempts requestTimeout attempt fuel snap sleeps).attempts =
        maxAttempts := by
  intro fuel
  induction fuel with
  | zero => intro attempt snap sleeps _ h1; omega
  | succ fuel ih =>
    intro attempt snap sleeps hsum _
    simp only [requestGo, hf]
    by_cases hlt : attempt < maxAttempts
    · rw [if_pos hlt]
      exact ih (attempt + 1) snap (sleeps ++ [.backoff attempt]) (by omega) (by omega)
    · rw [if_neg hlt]
      refine ⟨rfl, ?_⟩
      show attempt = maxAttempts
      omega

/-- Claim C7 amended: whenever every transport attempt fails before a
response, the exhausted retry budget surfaces the error produced by the
final transform: TimeoutFailure carrying the effective timeout budget
when the cause is an abort, NetworkFailure wrapping the cause when the
cause is a TypeError whose message mentions fetch (the platform network
failure), and the raw cause unchanged otherwise; the number of attempts
equals the full budget. -/
theorem claim_c7_amended {T : Type} (cfg : ClientConfig) (rc : RequestConfig)
    (fetch : Nat → FetchOutcome T) (snap0 : Option RateLimitInfo) (e : JsError)
    (hf : ∀ i, fetch i = .throwErr e) :
    (HttpClient.request cfg rc fetch snap0).result =
      .error (transformFinalError e (rc.timeout.getD cfg.timeout)) ∧
    (HttpClient.request cfg rc fetch snap0).attempts = rc.retries.getD cfg.maxRetries + 1 := by
  unfold HttpClient.request
  exact requestGo_all_throw fetch _ _ e hf _ 1 snap0 [] (by omega) (by omega)

/-- Witness for the amended claim C7: an aborting fetch with retry
budget 2 and timeout 5000 surfaces the TimeoutError after 3 attempts. -/
theorem claim_c7_witness :
    (HttpClient.request ⟨2, 5000⟩ ⟨none, none⟩ fetchAbort none).result =
      .error (.api (TimeoutError.make (some "Request timed out") (some 5000))) ∧
    (HttpClient.request ⟨2, 5000⟩ ⟨none, none⟩ fetchAbort none).attempts = 3 := by
  have h := claim_c7_amended ⟨2, 5000⟩ ⟨none, none⟩ fetchAbort none abortErr (fun i => rfl)
  refine ⟨?_, h.2⟩
  rw [h.1]
  decide

/-! ## Claim C9 -/

/-- Claim C9: the rate limit snapshot starts as unknown (null); any
received response carrying all three X-RateLimit headers overwrites it
(independently of the previous snapshot) with exactly the three parsed
integer values, while a response missing at least one of them leaves it
unchanged; the update happens on success and failure responses alike. -/
theorem claim_c9_rate_limit_snapshot {T : Type} (h : HeadersM) (prev : Option RateLimitInfo)
    (cfg : ClientConfig) (rc : RequestConfig) (fetch : Nat → FetchOutcome T)
    (snap0 : Option RateLimitInfo) (r : MockResponse T) :
    HttpClient.initialRateLimit = none ∧
    ((truthyStr (h "X-RateLimit-Limit") && truthyStr (h "X-RateLimit-Remaining") &&
        truthyStr (h "X-RateLimit-Reset")) = true →
      HttpClient.parseRateLimitHeaders h prev =
        some ⟨jsParseInt ((h "X-RateLimit-Limit").getD ""),
              jsParseInt ((h "X-RateLimit-Remaining").getD ""),
              jsParseInt ((h "X-RateLimit-Reset").getD "")⟩) ∧
    ((truthyStr (h "X-RateLimit-Limit") && truthyStr (h "X-RateLimit-Remaining") &&
        truthyStr (h "X-RateLimit-Reset")) = false →
      HttpClient.parseRateLimitHeaders h prev = prev) ∧
    (fetch 1 = .resp r → responseOk r.status →
      (HttpClient.request cfg rc fetch snap0).snapshot =
        HttpClient.parseRateLimitHeaders r.headers snap0) ∧
    (fetch 1 = .resp r → 400 ≤ r.status → r.status < 500 → r.status ≠ 429 →
      (HttpClient.request cfg rc fetch snap0).snapshot =
        HttpClient.parseRateLimitHeaders r.headers snap0) := by
  refine ⟨rfl, ?_, ?_, ?_, ?_⟩
  · intro ht
    simp only [HttpClient.parseRateLimitHeaders]
    rw [if_pos ht]
  · intro ht
    simp only [HttpClient.parseRateLimitHeaders]
    rw [if_neg (by simp [ht])]
  · intro hf hok
    unfold HttpClient.request
    simp only [requestGo, hf]
    rw [if_pos hok]
  · intro hf h4 h5 h9
    unfold HttpClient.request
    simp only [requestGo, hf]
    rw [if_neg (show ¬ responseOk r.status by unfold responseOk; omega)]
    rw [if_pos ⟨h4, h5, h9⟩]

/-- Witness for claim C9 at the concrete header values of the spec:
limit 100, remaining 45, reset 1700000000 overwrite a previous snapshot;
headers missing the reset leave it unchanged; a successful request
records the parsed snapshot. -/
theorem claim_c9_witness :
    HttpClient.parseRateLimitHeaders rlHeaders (some ⟨some 1, some 2, some 3⟩) =
      some ⟨some 100, some 45, some 1700000000⟩ ∧
    HttpClient.parseRateLimitHeaders rlHeadersPartial
      (some ⟨some 100, some 45, some 1700000000⟩) =
      some ⟨some 100, some 45, some 1700000000⟩ ∧
    (HttpClient.request ⟨3, 30000⟩ ⟨none, none⟩ fetchOkRl none).snapshot =
      HttpClient.parseRateLimitHeaders rlHeaders none := by
  refine ⟨?_, ?_, ?_⟩
  · rw [(claim_c9_rate_limit_snapshot rlHeaders (some ⟨some 1, some 2, some 3⟩) ⟨3, 30000⟩
      ⟨none, none⟩ fetchOkRl none ⟨200, rlHeaders, ⟨none⟩, 7⟩).2.1 (by decide)]
    decide
  · exact (claim_c9_rate_limit_snapshot rlHeadersPartial
      (some ⟨some 100, some 45, some 1700000000⟩) ⟨3, 30000⟩ ⟨none, none⟩ fetchOkRl none
      ⟨200, rlHeaders, ⟨none⟩, 7⟩).2.2.1 (by decide)
  · exact (claim_c9_rate_limit_snapshot rlHeaders none ⟨3, 30000⟩ ⟨none, none⟩ fetchOkRl none
      ⟨200, rlHeaders, ⟨none⟩, 7⟩).2.2.2.1 rfl (by decide)

end HisabSDK
